import Mathlib

/-!
Formal model of the Systematic Review Screening Tool (src/main.py).

The Python program keeps four pieces of global review state
(all_articles, current_index, included_articles, excluded_articles),
normalizes PubMed and Cochrane records into article dictionaries,
highlights keywords in the displayed abstract, and exports CSV files.
This file is a shallow embedding of that logic: the article dictionary
becomes the Article structure, the mutable globals become ScreenState,
and each method becomes a pure state-transition function translated
from the source.  Widget and network calls carry no session state and
are modelled only through their observable effect (text inserted into
the article display, rows handed to the CSV sink, message boxes shown).
-/

/-- One article dictionary as built by the parsers in main.py:
keys Sr_No, Title, ID_Link, Abstract, Authors, Source, Status, and the
Decision_Date key that only decision snapshots carry (absence of that
key is modelled by Option.none).  Status is the literal string stored
by the program: "Pending", "Included" or "Excluded". -/
structure Article where
  srNo : Nat
  title : String
  idLink : String
  abstract : String
  authors : String
  source : String
  status : String
  decisionDate : Option String
  deriving DecidableEq

/-- The four global variables of SystematicReviewTool that hold review
state: self.all_articles, self.current_index, self.included_articles,
self.excluded_articles.  current_index is a Nat: it starts at 0 and
previous_article refuses to go below 0, so it never becomes negative
in the program. -/
structure ScreenState where
  all_articles : List Article
  current_index : Nat
  included_articles : List Article
  excluded_articles : List Article
  deriving DecidableEq

/-- The state set up in SystematicReviewTool.__init__: empty article
list, cursor 0, empty decision lists. -/
def initState : ScreenState :=
  { all_articles := [], current_index := 0,
    included_articles := [], excluded_articles := [] }

/-- perform_search (main.py 249-286), restricted to its effect on the
review state.  It assigns self.all_articles = [] and then extends it
with the records retrieved from the enabled sources (modelled here by
the aggregated batch parameter); if the final list is non-empty it
sets self.current_index = 0.  Nothing in the method touches
self.included_articles or self.excluded_articles, and when the batch
is empty the cursor keeps its previous value. -/
def perform_search (batch : List Article) (s : ScreenState) : ScreenState :=
  if batch.isEmpty then
    { s with all_articles := batch }
  else
    { s with all_articles := batch, current_index := 0 }

/-- next_article (main.py 717-724): advance the cursor only while
current_index < len(all_articles) - 1; at the last index (and on an
empty list, where the Python comparison is against -1) it leaves the
state unchanged and only shows the "Screening Complete" message box.
The guard is written current_index + 1 < length, which is the same
integer comparison without Nat truncation. -/
def next_article (s : ScreenState) : ScreenState :=
  if s.current_index + 1 < s.all_articles.length then
    { s with current_index := s.current_index + 1 }
  else
    s

/-- previous_article (main.py 726-730): decrement the cursor only when
current_index > 0. -/
def previous_article (s : ScreenState) : ScreenState :=
  if 0 < s.current_index then
    { s with current_index := s.current_index - 1 }
  else
    s

/-- include_article (main.py 693-703).  The Python guard is
`self.all_articles and 0 <= self.current_index < len(self.all_articles)`;
with a Nat cursor this is exactly current_index < length (which forces
the list to be non-empty).  On success it appends a copy of the current
article with Status = "Included" and Decision_Date = now to
included_articles, sets the live article's Status in place, and calls
next_article. -/
def include_article (now : String) (s : ScreenState) : ScreenState :=
  if h : s.current_index < s.all_articles.length then
    let a := s.all_articles.get ⟨s.current_index, h⟩
    next_article
      { s with
        all_articles :=
          s.all_articles.set s.current_index { a with status := "Included" },
        included_articles :=
          s.included_articles ++
            [{ a with status := "Included", decisionDate := some now }] }
  else
    s

/-- exclude_article (main.py 705-715), symmetric to include_article. -/
def exclude_article (now : String) (s : ScreenState) : ScreenState :=
  if h : s.current_index < s.all_articles.length then
    let a := s.all_articles.get ⟨s.current_index, h⟩
    next_article
      { s with
        all_articles :=
          s.all_articles.set s.current_index { a with status := "Excluded" },
        excluded_articles :=
          s.excluded_articles ++
            [{ a with status := "Excluded", decisionDate := some now }] }
  else
    s

/-- previous_article applied k times (navigating back re-runs the same
button handler). -/
def prevN : Nat → ScreenState → ScreenState
  | 0, s => s
  | k + 1, s => prevN k (previous_article s)

/-- One user-level operation on the review session: a completed
retrieval replacing the batch, an include or exclude decision (tagged
with the timestamp string datetime.now() produced at that moment), or
a navigation button. -/
inductive Op where
  | search (batch : List Article)
  | incl (now : String)
  | excl (now : String)
  | nxt
  | prev
  deriving DecidableEq

/-- Apply one operation to the review state. -/
def applyOp (s : ScreenState) : Op → ScreenState
  | Op.search batch => perform_search batch s
  | Op.incl now => include_article now s
  | Op.excl now => exclude_article now s
  | Op.nxt => next_article s
  | Op.prev => previous_article s

/-- Run a sequence of user operations from a given state. -/
def runOps (ops : List Op) (s : ScreenState) : ScreenState :=
  ops.foldl applyOp s

/-- The Pending count shown by update_results_summary (main.py
732-743): pending = total - included - excluded, evaluated over Python
ints, which can go negative; hence the Int codomain. -/
def pendingCount (s : ScreenState) : Int :=
  (s.all_articles.length : Int)
    - s.included_articles.length - s.excluded_articles.length

/-! ## Record normalization: PubMed (Biopython path) -/

/-- One entry of an AuthorList as the parsers read it: the LastName,
ForeName and CollectiveName keys, each possibly absent. -/
structure BioAuthor where
  lastName : Option String
  foreName : Option String
  collectiveName : Option String
  deriving DecidableEq

/-- The author loop shared by both PubMed parsers (main.py 400-407 and
446-457): an author contributes "Last Fore" when both name parts are
present, otherwise its CollectiveName when that is present, otherwise
nothing. -/
def authorEntry (au : BioAuthor) : Option String :=
  match au.lastName, au.foreName with
  | some l, some f => some (l ++ " " ++ f)
  | _, _ => au.collectiveName

/-- `'; '.join(authors) if authors else 'No authors listed'`. -/
def authorsStr (aus : List BioAuthor) : String :=
  let names := aus.filterMap authorEntry
  if names.isEmpty then "No authors listed" else String.intercalate "; " names

/-- record['MedlineCitation']['Article'] as the Biopython parser reads
it.  AbstractText may be a single string or a list of segment strings
(Sum), or absent. -/
structure BioArticleElem where
  articleTitle : Option String
  abstractText : Option (Sum String (List String))
  authorList : List BioAuthor
  deriving DecidableEq

/-- record['MedlineCitation']: the PMID key and the Article key (a
missing Article key raises KeyError inside the parser). -/
structure BioCitation where
  pmid : Option String
  article : Option BioArticleElem
  deriving DecidableEq

/-- One record of records['PubmedArticle'].  A missing MedlineCitation
key raises KeyError on the parser's first line. -/
structure BioRecord where
  medlineCitation : Option BioCitation
  deriving DecidableEq

/-- parse_pubmed_record (main.py 382-421).  Its whole body sits inside
try/except: any lookup failure is printed and the function returns
None, so the fallible dictionary lookups become the two none branches.
Abstract handling mirrors 390-397: absent => "", a list of segments =>
' '.join(segments), a single string => itself (an empty string is
falsy in Python, and the join of [] is also "", so both collapse to
the same values here). -/
def parse_pubmed_record (record : BioRecord) (sr_no : Nat) : Option Article :=
  match record.medlineCitation with
  | none => none
  | some mc =>
    match mc.article with
    | none => none
    | some art =>
      some
        { srNo := sr_no,
          title := art.articleTitle.getD "No title",
          idLink := "PMID: " ++ mc.pmid.getD "",
          abstract :=
            match art.abstractText with
            | none => ""
            | some (Sum.inl s) => s
            | some (Sum.inr segs) => String.intercalate " " segs,
          authors := authorsStr art.authorList,
          source := "PubMed",
          status := "Pending",
          decisionDate := none }

/-- The record loop of search_pubmed (main.py 309-315):
`for i, record in enumerate(records['PubmedArticle']):` calls
parse_pubmed_record(record, i + 1) inside try/except and appends the
result.  Since parse_pubmed_record traps every exception itself and
returns None instead of raising, the except/continue branch of this
loop is unreachable and whatever the parser returns - including None -
is appended. -/
def search_pubmed_records (recs : List BioRecord) : List (Option Article) :=
  recs.enum.map (fun p => parse_pubmed_record p.2 (p.1 + 1))

/-! ## Record normalization: PubMed (direct-API XML path) -/

/-- The Article element of one PubmedArticle as parse_pubmed_xml reads
it: the ArticleTitle text (None when the element is missing), the list
of AbstractText segment texts that are non-empty (the code skips
elements whose .text is falsy), and the Author elements. -/
structure XmlArticleElem where
  articleTitle : Option String
  abstractTexts : List String
  authorList : List BioAuthor
  deriving DecidableEq

/-- One PubmedArticle element: its PMID text, and its Article element
(when find('.//Article') returns None the subsequent attribute access
raises, which the parser's except turns into a None result). -/
structure XmlPubmedArticle where
  pmid : Option String
  article : Option XmlArticleElem
  deriving DecidableEq

/-- parse_pubmed_xml (main.py 474-523; an identical earlier copy at
423-472 is shadowed by this second definition).  Like the Biopython
parser it traps every exception and returns None. -/
def parse_pubmed_xml (x : XmlPubmedArticle) (sr_no : Nat) : Option Article :=
  match x.article with
  | none => none
  | some art =>
    some
      { srNo := sr_no,
        title := art.articleTitle.getD "No title",
        idLink := "PMID: " ++ x.pmid.getD "",
        abstract := String.intercalate " " art.abstractTexts,
        authors := authorsStr art.authorList,
        source := "PubMed",
        status := "Pending",
        decisionDate := none }

/-- The record loop of search_pubmed_direct (main.py 369-375): each
parsed element gets sequence number len(articles) + 1 and the result
is appended (again including None on a parse failure, for the same
reason as in search_pubmed).  The batching into fetches of 100 PMIDs
does not affect this list: `articles` is shared across fetches. -/
def search_pubmed_direct_loop (xs : List XmlPubmedArticle) : List (Option Article) :=
  xs.foldl (fun acc x => acc ++ [parse_pubmed_xml x (acc.length + 1)]) []

/-! ## Record normalization: Cochrane CSV rows -/

/-- One CSV row after the synonym resolution of load_cochrane_csv
(main.py 533-552): for each logical field, the value of the first
matching column, or none when no synonym column exists. -/
structure CsvRow where
  title : Option String
  authors : Option String
  abstract : Option String
  doi : Option String
  deriving DecidableEq

/-- The article built from row i of the Cochrane CSV (main.py
547-563).  base is len(self.all_articles) at call time, so Sr_No
continues from the already-aggregated PubMed records.  An absent or
empty DOI is falsy, giving 'No ID'. -/
def cochraneArticle (base : Nat) (i : Nat) (row : CsvRow) : Article :=
  { srNo := base + i + 1,
    title := row.title.getD "No title",
    idLink :=
      match row.doi with
      | some d => if d = "" then "No ID" else "DOI: " ++ d
      | none => "No ID",
    abstract := row.abstract.getD "",
    authors := row.authors.getD "No authors listed",
    source := "Cochrane",
    status := "Pending",
    decisionDate := none }

/-- The row loop of load_cochrane_csv: every row yields an article
(row.get and str() do not raise, so the per-row except is dead code). -/
def load_cochrane_csv (base : Nat) (rows : List CsvRow) : List Article :=
  rows.enum.map (fun p => cochraneArticle base p.1 p.2)

/-- The aggregation performed by perform_search: all_articles starts
empty, is extended with the PubMed results, and the Cochrane loader is
then called with base = len(self.all_articles) = the length of the
PubMed list (including any None slots from failed parses). -/
def aggregateBatch (xs : List XmlPubmedArticle) (rows : List CsvRow) :
    List (Option Article) :=
  search_pubmed_direct_loop xs ++
    (load_cochrane_csv (search_pubmed_direct_loop xs).length rows).map some

/-- The Sr_No values of the well-formed entries of a batch, in batch
order. -/
def seqNums (l : List (Option Article)) : List Nat :=
  (l.filterMap id).map (fun a => a.srNo)

/-! ## Keyword highlighter -/

/-- ASCII case folding, matching Python str.lower on the ASCII inputs
this tool handles (Char.toLower lowers exactly the ASCII uppercase
letters). -/
def pyLower (s : String) : String :=
  String.mk (s.data.map Char.toLower)

/-- Does keyword k (as characters) match the beginning of cs,
case-insensitively?  This is what the IGNORECASE regex engine checks
for one re.escape(keyword) alternative at one text position. -/
def ciHeadEq : List Char → List Char → Bool
  | [], _ => true
  | _ :: _, [] => false
  | a :: k, c :: cs => (a.toLower == c.toLower) && ciHeadEq k cs

/-- The first keyword of the alternation that matches at this text
position.  The regex alternation built at main.py 674-682 tries the
escaped keywords left to right in declaration order.  Keywords are
required to be non-empty here: update_keywords (main.py 604-611) only
ever stores non-empty trimmed keywords, so a zero-width alternative
never occurs in the program. -/
def findKeywordAt (kws : List (List Char)) (cs : List Char) : Option (List Char) :=
  kws.find? (fun k => !k.isEmpty && ciHeadEq k cs)

/-- The scan behind `re.split(f'({pattern})', text, flags=re.IGNORECASE)`
(main.py 685): walk the text left to right; at each position where
some alternative matches, emit the gap accumulated since the previous
match (possibly empty, exactly as re.split emits empty pieces around
adjacent or boundary matches) followed by the matched slice in its
original casing, and continue after the match.  The fuel argument is
the length of the remaining text at the call site, which every branch
respects (each step consumes at least one character), so the fuel-zero
branch is unreachable from hlSplit; it is written to keep the split
exhaustive. -/
def hlSplitAux (kws : List (List Char)) : Nat → List Char → List Char → List (List Char)
  | 0, acc, rest => [acc.reverse ++ rest]
  | _ + 1, acc, [] => [acc.reverse]
  | fuel + 1, acc, c :: cs =>
    match findKeywordAt kws (c :: cs) with
    | some k =>
      acc.reverse :: (c :: cs).take k.length ::
        hlSplitAux kws fuel [] ((c :: cs).drop k.length)
    | none => hlSplitAux kws fuel (c :: acc) cs

/-- Split a text on the keyword alternation, keeping the matched
delimiters, as re.split with one capturing group does. -/
def hlSplit (kws : List (List Char)) (text : List Char) : List (List Char) :=
  hlSplitAux kws text.length [] text

/-- insert_text_with_highlights (main.py 667-691) as the list of
insert calls it performs on the article display: each element is the
inserted text with True for the "highlight" tag and False for the
plain tag.  With no keywords the whole text goes in as one plain
insert; otherwise each piece of the split is inserted, highlighted
exactly when its lowercase form is in the lowercased keyword list
(`part.lower() in [kw.lower() for kw in self.inclusion_keywords]`).
The second early return at 678-680 repeats the first check (patterns
is empty iff the keyword list is) and is therefore not a separate
case. -/
def insert_text_with_highlights (kws : List String) (text : String) :
    List (String × Bool) :=
  if kws = [] then [(text, false)]
  else
    (hlSplit (kws.map (fun k => k.data)) text.data).map
      (fun p => (String.mk p, (kws.map pyLower).contains (pyLower (String.mk p))))

/-- The observable spans of the article display after the insert
calls: inserting the empty string into a tkinter Text widget adds no
characters and tags no range, so only the non-empty insertions are
observable. -/
def renderedSpans (kws : List String) (text : String) : List (String × Bool) :=
  (insert_text_with_highlights kws text).filter (fun p => p.1 != "")

/-- Concatenation of the span texts in order. -/
def spanConcat (l : List (String × Bool)) : String :=
  l.foldr (fun p acc => p.1 ++ acc) ""

/-! ## Input validation of start_search -/

/-- Python str.strip(): remove leading and trailing whitespace. -/
def pyStrip (s : String) : String :=
  String.mk
    (((s.data.dropWhile Char.isWhitespace).reverse.dropWhile
        Char.isWhitespace).reverse)

/-- Python int(str): after stripping whitespace, an optional sign
followed by at least one digit; anything else raises ValueError
(modelled as none).  Underscore digit separators, which Python also
accepts, are not modelled; no claim depends on them. -/
def pyInt (s : String) : Option Int :=
  match (pyStrip s).data with
  | [] => none
  | c :: rest =>
    let digits := if c = '-' || c = '+' then rest else c :: rest
    let neg := c = '-'
    if !digits.isEmpty && digits.all Char.isDigit then
      let n : Nat := digits.foldl (fun a d => a * 10 + (d.toNat - 48)) 0
      some (if neg then -(n : Int) else (n : Int))
    else none

/-- The outcome of pressing Start Search: either a synchronous
rejection via messagebox.showerror (no thread is started), or the
background search thread is started with the given terms and max
results. -/
inductive SearchStart where
  | rejected (msg : String)
  | started (terms : String) (maxResults : Int)
  deriving DecidableEq

/-- start_search (main.py 221-247): strip the email and the search
terms; reject empty terms, then an empty email, then a cap that does
not parse as an int; otherwise start the background search.  The
parsed cap is passed through unchecked - in particular its sign is
never inspected. -/
def start_search (email searchTerms maxResultsStr : String) : SearchStart :=
  if pyStrip searchTerms = "" then
    SearchStart.rejected "Please enter search terms"
  else if pyStrip email = "" then
    SearchStart.rejected "Please enter your email address"
  else
    match pyInt maxResultsStr with
    | none => SearchStart.rejected "Please enter a valid number for max results"
    | some n => SearchStart.started (pyStrip searchTerms) n

/-! ## Export -/

/-- The Decision_Date back-fill loop of export_all_results (main.py
794-807): a decided article takes the Decision_Date of the first
snapshot in the corresponding decision list with the same Sr_No
(defaulting to "" when the snapshot lacks the key); an undecided
article is left alone. -/
def backfillDecisionDate (incl excl : List Article) (a : Article) : Article :=
  if a.status = "Included" then
    match incl.find? (fun b => b.srNo == a.srNo) with
    | some b => { a with decisionDate := some (b.decisionDate.getD "") }
    | none => a
  else if a.status = "Excluded" then
    match excl.find? (fun b => b.srNo == a.srNo) with
    | some b => { a with decisionDate := some (b.decisionDate.getD "") }
    | none => a
  else a

/-- export_all_results (main.py 787-815) through its effect on the
file sink: with an empty batch it shows the "No Data" warning and
writes nothing (error); otherwise it writes exactly one CSV file whose
rows are the batch entries with Decision_Date back-filled (ok carries
the written rows).  The in-place Decision_Date update of the live
list is visible only through these rows. -/
def export_all_results (s : ScreenState) : Except String (List Article) :=
  if s.all_articles = [] then Except.error "No articles to export"
  else
    Except.ok
      (s.all_articles.map
        (backfillDecisionDate s.included_articles s.excluded_articles))

/-- export_included (main.py 817-830): with no included articles it
shows the "No Data" warning and writes nothing; otherwise it writes
one file holding exactly the included snapshots. -/
def export_included (s : ScreenState) : Except String (List Article) :=
  if s.included_articles = [] then Except.error "No included articles to export"
  else Except.ok s.included_articles

/-! ## Session lemmas -/

theorem next_article_all (s : ScreenState) :
    (next_article s).all_articles = s.all_articles := by
  unfold next_article; split <;> rfl

theorem next_article_incl (s : ScreenState) :
    (next_article s).included_articles = s.included_articles := by
  unfold next_article; split <;> rfl

theorem next_article_excl (s : ScreenState) :
    (next_article s).excluded_articles = s.excluded_articles := by
  unfold next_article; split <;> rfl

theorem previous_article_all (s : ScreenState) :
    (previous_article s).all_articles = s.all_articles := by
  unfold previous_article; split <;> rfl

theorem previous_article_incl (s : ScreenState) :
    (previous_article s).included_articles = s.included_articles := by
  unfold previous_article; split <;> rfl

theorem previous_article_excl (s : ScreenState) :
    (previous_article s).excluded_articles = s.excluded_articles := by
  unfold previous_article; split <;> rfl

theorem prevN_all (k : Nat) (s : ScreenState) :
    (prevN k s).all_articles = s.all_articles := by
  induction k generalizing s with
  | zero => rfl
  | succ k ih => rw [prevN, ih, previous_article_all]

theorem prevN_incl (k : Nat) (s : ScreenState) :
    (prevN k s).included_articles = s.included_articles := by
  induction k generalizing s with
  | zero => rfl
  | succ k ih => rw [prevN, ih, previous_article_incl]

theorem prevN_excl (k : Nat) (s : ScreenState) :
    (prevN k s).excluded_articles = s.excluded_articles := by
  induction k generalizing s with
  | zero => rfl
  | succ k ih => rw [prevN, ih, previous_article_excl]

theorem include_article_of_lt (now : String) (s : ScreenState)
    (h : s.current_index < s.all_articles.length) :
    include_article now s =
      next_article
        { s with
          all_articles := s.all_articles.set s.current_index
            { s.all_articles.get ⟨s.current_index, h⟩ with status := "Included" },
          included_articles := s.included_articles ++
            [{ s.all_articles.get ⟨s.current_index, h⟩ with
                status := "Included", decisionDate := some now }] } := by
  unfold include_article
  rw [dif_pos h]

theorem exclude_article_of_lt (now : String) (s : ScreenState)
    (h : s.current_index < s.all_articles.length) :
    exclude_article now s =
      next_article
        { s with
          all_articles := s.all_articles.set s.current_index
            { s.all_articles.get ⟨s.current_index, h⟩ with status := "Excluded" },
          excluded_articles := s.excluded_articles ++
            [{ s.all_articles.get ⟨s.current_index, h⟩ with
                status := "Excluded", decisionDate := some now }] } := by
  unfold exclude_article
  rw [dif_pos h]

/-! ## Concrete articles used to instantiate the theorems -/

def artA : Article :=
  { srNo := 1, title := "Alpha", idLink := "PMID: 11", abstract := "",
    authors := "No authors listed", source := "PubMed",
    status := "Pending", decisionDate := none }

def artB : Article :=
  { srNo := 2, title := "Beta", idLink := "No ID", abstract := "",
    authors := "No authors listed", source := "Cochrane",
    status := "Pending", decisionDate := none }

/-! ## Claim C1 -/

/-- Claim C1, counterexample: a new retrieval does not clear the
decision sets.  After loading one article and including it, a second
retrieval with a non-empty batch leaves the included set non-empty. -/
theorem C1_counterexample :
    (perform_search [artB]
        (include_article "t1" (perform_search [artA] initState))).included_articles
      ≠ [] ∧
    ([artB] : List Article) ≠ [] := by decide

/-- Claim C1 (amended): perform_search replaces the article list
wholesale and resets the cursor to 0 when the new list is non-empty
(leaving the session Reviewing) and leaves the session Empty when it
is empty (the cursor then keeps its previous value); the included and
excluded decision sets are not cleared - they carry over unchanged
across retrievals. -/
theorem C1_reload (s : ScreenState) (batch : List Article) :
    (perform_search batch s).all_articles = batch ∧
    (batch ≠ [] → (perform_search batch s).current_index = 0) ∧
    (batch = [] → (perform_search batch s).current_index = s.current_index) ∧
    (perform_search batch s).included_articles = s.included_articles ∧
    (perform_search batch s).excluded_articles = s.excluded_articles := by
  unfold perform_search
  rcases batch with _ | ⟨a, t⟩ <;> simp

/-- Witness for C1_reload at concrete inputs. -/
theorem C1_reload_witness :
    (perform_search [artA] initState).current_index = 0 ∧
    (perform_search [] initState).current_index = initState.current_index :=
  ⟨(C1_reload initState [artA]).2.1 (by decide),
   (C1_reload initState []).2.2.1 rfl⟩

/-! ## Claim C3 -/

/-- Claim C3, counterexample: with a one-article batch the cursor sits
at the last index; include_article records the decision but the cursor
stays at 0 rather than moving past the last article, and next_article
from the last index leaves the state completely unchanged. -/
theorem C3_counterexample :
    (perform_search [artA] initState).current_index =
      (perform_search [artA] initState).all_articles.length - 1 ∧
    (include_article "t" (perform_search [artA] initState)).current_index ≠
      (perform_search [artA] initState).all_articles.length ∧
    (include_article "t" (perform_search [artA] initState)).current_index = 0 ∧
    next_article (perform_search [artA] initState) =
      perform_search [artA] initState := by decide

/-- Claim C3 (amended): in Reviewing with the cursor at the last
index, include() and exclude() do record the timestamped decision
snapshot and mutate the live article's status, but the subsequent
next_article call leaves the cursor at the last index (only showing
the completion message); the cursor never moves past the last article,
so a past-the-end Complete state is never entered, and next() from the
last index likewise leaves the state unchanged. -/
theorem C3_last_index (s : ScreenState) (now : String)
    (h1 : s.all_articles ≠ [])
    (h2 : s.current_index = s.all_articles.length - 1) :
    next_article s = s ∧
    (include_article now s).current_index = s.current_index ∧
    (exclude_article now s).current_index = s.current_index ∧
    (include_article now s).current_index < s.all_articles.length ∧
    (∃ a, s.all_articles[s.current_index]? = some a ∧
      (include_article now s).included_articles =
        s.included_articles ++
          [{ a with status := "Included", decisionDate := some now }] ∧
      (include_article now s).all_articles[s.current_index]? =
        some { a with status := "Included" } ∧
      (exclude_article now s).excluded_articles =
        s.excluded_articles ++
          [{ a with status := "Excluded", decisionDate := some now }] ∧
      (exclude_article now s).all_articles[s.current_index]? =
        some { a with status := "Excluded" }) := by
  have hlen : 0 < s.all_articles.length := List.length_pos.mpr h1
  have hcur : s.current_index < s.all_articles.length := by omega
  have hnext : ¬ s.current_index + 1 < s.all_articles.length := by omega
  have hnexteq : next_article s = s := by
    unfold next_article; rw [if_neg hnext]
  have hinc := include_article_of_lt now s hcur
  have hexc := exclude_article_of_lt now s hcur
  have hincState : include_article now s =
      { s with
        all_articles := s.all_articles.set s.current_index
          { s.all_articles.get ⟨s.current_index, hcur⟩ with status := "Included" },
        included_articles := s.included_articles ++
          [{ s.all_articles.get ⟨s.current_index, hcur⟩ with
              status := "Included", decisionDate := some now }] } := by
    rw [hinc]; unfold next_article
    simp only [List.length_set]
    rw [if_neg hnext]
  have hexcState : exclude_article now s =
      { s with
        all_articles := s.all_articles.set s.current_index
          { s.all_articles.get ⟨s.current_index, hcur⟩ with status := "Excluded" },
        excluded_articles := s.excluded_articles ++
          [{ s.all_articles.get ⟨s.current_index, hcur⟩ with
              status := "Excluded", decisionDate := some now }] } := by
    rw [hexc]; unfold next_article
    simp only [List.length_set]
    rw [if_neg hnext]
  refine ⟨hnexteq, by rw [hincState], by rw [hexcState], by rw [hincState]; exact hcur, ?_⟩
  refine ⟨s.all_articles.get ⟨s.current_index, hcur⟩, ?_, ?_, ?_, ?_, ?_⟩
  · simp [List.getElem?_eq_getElem hcur]
  · rw [hincState]
  · rw [hincState]
    simp [List.getElem?_set_self, hcur]
  · rw [hexcState]
  · rw [hexcState]
    simp [List.getElem?_set_self, hcur]

/-- Witness for C3_last_index at a concrete one-article session. -/
theorem C3_last_index_witness :
    next_article (perform_search [artA] initState) = perform_search [artA] initState ∧
    (include_article "t" (perform_search [artA] initState)).current_index =
      (perform_search [artA] initState).current_index :=
  ⟨(C3_last_index (perform_search [artA] initState) "t" (by decide) (by decide)).1,
   (C3_last_index (perform_search [artA] initState) "t" (by decide) (by decide)).2.1⟩

/-! ## Claim C4 -/

/-- Claim C4: re-deciding an already-decided article appends a new
snapshot without removing the earlier one.  From any Reviewing
position holding article a, include it, navigate back with any number
of previous presses that return the cursor to the same index, and
exclude: afterwards a's sequence number is a member of both the
included and the excluded sets. -/
theorem C4_redecide (s : ScreenState) (t1 t2 : String) (k : Nat) (a : Article)
    (ha : s.all_articles[s.current_index]? = some a)
    (hk : (prevN k (include_article t1 s)).current_index = s.current_index) :
    a.srNo ∈ ((exclude_article t2 (prevN k (include_article t1 s))).included_articles.map
        (fun b => b.srNo)) ∧
    a.srNo ∈ ((exclude_article t2 (prevN k (include_article t1 s))).excluded_articles.map
        (fun b => b.srNo)) := by
  have hcur : s.current_index < s.all_articles.length :=
    (List.getElem?_eq_some.mp ha).1
  have hget : s.all_articles.get ⟨s.current_index, hcur⟩ = a := by
    have h2 : s.all_articles[s.current_index]? =
        some (s.all_articles.get ⟨s.current_index, hcur⟩) := by
      simp [List.getElem?_eq_getElem hcur]
    rw [h2] at ha
    exact Option.some.inj ha
  have hu_all : (prevN k (include_article t1 s)).all_articles =
      s.all_articles.set s.current_index { a with status := "Included" } := by
    rw [prevN_all, include_article_of_lt t1 s hcur, next_article_all, hget]
  have hu_incl : (prevN k (include_article t1 s)).included_articles =
      s.included_articles ++
        [{ a with status := "Included", decisionDate := some t1 }] := by
    rw [prevN_incl, include_article_of_lt t1 s hcur, next_article_incl, hget]
  have hu_excl : (prevN k (include_article t1 s)).excluded_articles =
      s.excluded_articles := by
    rw [prevN_excl, include_article_of_lt t1 s hcur, next_article_excl]
  have hcu : (prevN k (include_article t1 s)).current_index <
      (prevN k (include_article t1 s)).all_articles.length := by
    rw [hk, hu_all, List.length_set]; exact hcur
  have h5 : (prevN k (include_article t1 s)).all_articles[
      (prevN k (include_article t1 s)).current_index]? =
      some ((prevN k (include_article t1 s)).all_articles.get
        ⟨(prevN k (include_article t1 s)).current_index, hcu⟩) := by
    simp [List.getElem?_eq_getElem hcu]
  have h6 : (prevN k (include_article t1 s)).all_articles[
      (prevN k (include_article t1 s)).current_index]? =
      some { a with status := "Included" } := by
    rw [hk, hu_all]
    simp [List.getElem?_set_self, hcur]
  have hgu : (prevN k (include_article t1 s)).all_articles.get
      ⟨(prevN k (include_article t1 s)).current_index, hcu⟩ =
      { a with status := "Included" } := by
    rw [h5] at h6
    exact Option.some.inj h6
  constructor
  · rw [exclude_article_of_lt t2 _ hcu, next_article_incl, hu_incl]
    refine List.mem_map.mpr ⟨{ a with status := "Included", decisionDate := some t1 }, ?_, rfl⟩
    exact List.mem_append_right _ (List.mem_singleton.mpr rfl)
  · rw [exclude_article_of_lt t2 _ hcu, next_article_excl, hu_excl, hgu]
    refine List.mem_map.mpr
      ⟨{ a with status := "Excluded", decisionDate := some t2 }, ?_, rfl⟩
    exact List.mem_append_right _ (List.mem_singleton.mpr rfl)

/-- Witness for C4_redecide: a one-article session, include and then
exclude with no navigation needed (the cursor stays at the last
index); article 1 ends up in both exported decision sets. -/
theorem C4_redecide_witness :
    (1 : Nat) ∈ ((exclude_article "t2"
        (prevN 0 (include_article "t1" (perform_search [artA] initState)))).included_articles.map
        (fun b => b.srNo)) ∧
    (1 : Nat) ∈ ((exclude_article "t2"
        (prevN 0 (include_article "t1" (perform_search [artA] initState)))).excluded_articles.map
        (fun b => b.srNo)) :=
  C4_redecide (perform_search [artA] initState) "t1" "t2" 0 artA (by decide) (by decide)

/-! ## Claim C9 -/

/-- The externally maintained cursor bound: whenever the article list
is non-empty, the cursor is a valid index. -/
def cursorInv (s : ScreenState) : Prop :=
  s.all_articles ≠ [] → s.current_index < s.all_articles.length

theorem next_article_cursorInv (s : ScreenState) (h : cursorInv s) :
    cursorInv (next_article s) := by
  intro hne
  rw [next_article_all] at hne
  have := h hne
  unfold next_article
  split
  · simpa using by omega
  · simpa using this

theorem applyOp_cursorInv (s : ScreenState) (op : Op) (h : cursorInv s) :
    cursorInv (applyOp s op) := by
  cases op with
  | search batch =>
    show cursorInv (perform_search batch s)
    intro hne
    rcases batch with _ | ⟨b, t⟩
    · simp [perform_search] at hne
    · simp [perform_search]
  | incl now =>
    show cursorInv (include_article now s)
    unfold include_article
    split
    · next hlt =>
      apply next_article_cursorInv
      intro _
      simpa [List.length_set] using hlt
    · exact h
  | excl now =>
    show cursorInv (exclude_article now s)
    unfold exclude_article
    split
    · next hlt =>
      apply next_article_cursorInv
      intro _
      simpa [List.length_set] using hlt
    · exact h
  | nxt => exact next_article_cursorInv s h
  | prev =>
    show cursorInv (previous_article s)
    intro hne
    rw [previous_article_all] at hne
    have := h hne
    unfold previous_article
    split
    · simpa using by omega
    · simpa using this

theorem runOps_cursorInv (ops : List Op) :
    ∀ s : ScreenState, cursorInv s → cursorInv (runOps ops s) := by
  induction ops with
  | nil => intro s h; exact h
  | cons op t ih =>
    intro s h
    exact ih (applyOp s op) (applyOp_cursorInv s op h)

/-- Claim C9, counterexample: an Empty session is not always left
unchanged by previous().  After reviewing past the first article and
then running a retrieval that returns zero records, the session is
Empty but the stale cursor is 1; previous() then decrements it, so the
session state changes. -/
theorem C9_counterexample :
    (runOps [Op.search [artA, artB], Op.nxt, Op.search []] initState).all_articles
      = [] ∧
    previous_article (runOps [Op.search [artA, artB], Op.nxt, Op.search []] initState)
      ≠ runOps [Op.search [artA, artB], Op.nxt, Op.search []] initState := by decide

/-- Claim C9 (amended): on an Empty session include, exclude and next
are complete no-ops (and none of the four operations raises), while
previous never changes the article list or the decision sets - it can
only move the stale hidden cursor, which is unobservable while no
articles are loaded; previous() with the cursor at 0 is a no-op and
hence idempotent; and along every operation sequence from the initial
state the cursor is a valid index whenever the article list is
non-empty, so an out-of-range cursor is never observable on a
non-empty list. -/
theorem C9_empty_session (s : ScreenState) (now : String) (ops : List Op) :
    (s.all_articles = [] →
      include_article now s = s ∧ exclude_article now s = s ∧
      next_article s = s ∧
      (previous_article s).all_articles = s.all_articles ∧
      (previous_article s).included_articles = s.included_articles ∧
      (previous_article s).excluded_articles = s.excluded_articles) ∧
    (s.current_index = 0 → previous_article s = s) ∧
    ((runOps ops initState).all_articles ≠ [] →
      (runOps ops initState).current_index <
        (runOps ops initState).all_articles.length) := by
  refine ⟨?_, ?_, ?_⟩
  · intro hE
    have hlen : ¬ s.current_index < s.all_articles.length := by
      rw [hE]; simp
    have hnext : ¬ s.current_index + 1 < s.all_articles.length := by
      rw [hE]; simp
    refine ⟨?_, ?_, ?_, previous_article_all s, previous_article_incl s,
      previous_article_excl s⟩
    · unfold include_article; rw [dif_neg hlen]
    · unfold exclude_article; rw [dif_neg hlen]
    · unfold next_article; rw [if_neg hnext]
  · intro h0
    unfold previous_article
    rw [if_neg (by omega)]
  · exact runOps_cursorInv ops initState (fun h => absurd rfl h)

/-- Witness for C9_empty_session at concrete inputs. -/
theorem C9_empty_session_witness :
    include_article "t" initState = initState ∧
    previous_article initState = initState ∧
    (runOps [Op.search [artA]] initState).current_index <
      (runOps [Op.search [artA]] initState).all_articles.length :=
  ⟨((C9_empty_session initState "t" [Op.search [artA]]).1 rfl).1,
   (C9_empty_session initState "t" [Op.search [artA]]).2.1 rfl,
   (C9_empty_session initState "t" [Op.search [artA]]).2.2 (by decide)⟩

/-! ## Claim C10 -/

/-- Claim C10: after loading a single article, including it, pressing
previous (a no-op at index 0 - the cursor never moved because
next_article stops at the last index) and excluding it again, both
decision lists hold a snapshot, so the Pending figure of the results
summary is 1 - 1 - 1 = -1: the derived pending count goes negative
once decisions outnumber articles. -/
theorem C10_negative_pending :
    pendingCount
        (runOps [Op.search [artA], Op.incl "t1", Op.prev, Op.excl "t2"] initState)
      = -1 ∧
    pendingCount
        (runOps [Op.search [artA], Op.incl "t1", Op.prev, Op.excl "t2"] initState)
      < 0 ∧
    (runOps [Op.search [artA], Op.incl "t1", Op.prev, Op.excl "t2"]
        initState).all_articles.length <
      (runOps [Op.search [artA], Op.incl "t1", Op.prev, Op.excl "t2"]
          initState).included_articles.length +
        (runOps [Op.search [artA], Op.incl "t1", Op.prev, Op.excl "t2"]
            initState).excluded_articles.length := by decide

/-! ## Claim C2 -/

/-- A Biopython record lacking the MedlineCitation key: the parser's
first lookup raises KeyError, which its own blanket except turns into
a None return value. -/
def badBioRecord : BioRecord := { medlineCitation := none }

/-- Claim C2, evaluation of the code at the failing input: the record
loop of search_pubmed appends whatever parse_pubmed_record returns,
and on a malformed record that is None - the batch does not shrink
(its length always equals the number of fetched records), it keeps a
None slot for every record the normalizer could not parse. -/
theorem C2_malformed_not_skipped :
    (∀ recs : List BioRecord,
      (search_pubmed_records recs).length = recs.length) ∧
    search_pubmed_records [badBioRecord] = [none] ∧
    (search_pubmed_records [badBioRecord]).length ≠ 0 := by
  refine ⟨?_, by decide, by decide⟩
  intro recs
  simp [search_pubmed_records]

/-! ## Claim C7 -/

/-- Claim C7, counterexample: "-5" parses as an int, so start_search
accepts it and starts the background search with max_results = -5,
although -5 is not a positive integer. -/
theorem C7_counterexample :
    start_search "user@example.com" "cancer" "-5" =
      SearchStart.started "cancer" (-5) ∧
    ¬ (0 : Int) < -5 := by decide

/-- Claim C7 (amended): start_search validates synchronously, before
the background thread starts: empty (stripped) search terms are
rejected first, then an empty (stripped) email, then a cap that does
not parse as an int; when all three checks pass the background search
starts with the parsed cap, whose sign is never checked (zero and
negative caps are accepted). -/
theorem C7_validation (email terms maxStr : String) :
    (pyStrip terms = "" →
      start_search email terms maxStr =
        SearchStart.rejected "Please enter search terms") ∧
    (pyStrip terms ≠ "" → pyStrip email = "" →
      start_search email terms maxStr =
        SearchStart.rejected "Please enter your email address") ∧
    (pyStrip terms ≠ "" → pyStrip email ≠ "" → pyInt maxStr = none →
      start_search email terms maxStr =
        SearchStart.rejected "Please enter a valid number for max results") ∧
    (∀ n : Int, pyStrip terms ≠ "" → pyStrip email ≠ "" → pyInt maxStr = some n →
      start_search email terms maxStr = SearchStart.started (pyStrip terms) n) := by
  refine ⟨?_, ?_, ?_, ?_⟩
  · intro ht
    unfold start_search
    rw [if_pos ht]
  · intro ht he
    unfold start_search
    rw [if_neg ht, if_pos he]
  · intro ht he hn
    unfold start_search
    rw [if_neg ht, if_neg he, hn]
  · intro n ht he hn
    unfold start_search
    rw [if_neg ht, if_neg he, hn]

/-- Witness for C7_validation: a padded query, a non-empty email and
the cap "0" - which is not positive but passes validation and starts
the search. -/
theorem C7_validation_witness :
    start_search "e@x" " cancer " "0" = SearchStart.started "cancer" 0 := by
  have h := (C7_validation "e@x" " cancer " "0").2.2.2 0
    (by decide) (by decide) (by decide)
  exact h

/-! ## Claim C8 -/

/-- Claim C8: export-included on a session with an empty included set
is rejected with the no-data warning and writes no file; export-all on
a session with at least one article writes exactly one file whose row
count equals the batch size. -/
theorem C8_export (s : ScreenState) :
    (s.included_articles = [] →
      export_included s = Except.error "No included articles to export") ∧
    (s.all_articles ≠ [] →
      ∃ rows, export_all_results s = Except.ok rows ∧
        rows.length = s.all_articles.length) := by
  constructor
  · intro h
    unfold export_included
    rw [if_pos h]
  · intro h
    unfold export_all_results
    rw [if_neg h]
    exact ⟨_, rfl, List.length_map _ _⟩

/-- Witness for C8_export: the fresh session has no included
articles; a one-article session exports one row. -/
theorem C8_export_witness :
    export_included initState = Except.error "No included articles to export" ∧
    ∃ rows, export_all_results (perform_search [artA] initState) = Except.ok rows ∧
      rows.length = 1 :=
  ⟨(C8_export initState).1 rfl,
   (C8_export (perform_search [artA] initState)).2 (by decide)⟩

/-! ## Claim C5 -/

theorem strMk_append (a b : List Char) :
    String.mk a ++ String.mk b = String.mk (a ++ b) := rfl

theorem strMk_data (s : String) : String.mk s.data = s := rfl

theorem str_append_empty (s : String) : s ++ "" = s := by
  have h : s ++ "" = String.mk (s.data ++ []) := rfl
  rw [h, List.append_nil]

theorem str_empty_append (s : String) : "" ++ s = s := rfl

/-- Concatenating the pieces of the keyword split, in order, gives
back the accumulator followed by the remaining text: the split never
loses or duplicates a character. -/
theorem hlSplitAux_flatten (kws : List (List Char)) :
    ∀ (fuel : Nat) (acc rest : List Char),
      (hlSplitAux kws fuel acc rest).flatten = acc.reverse ++ rest := by
  intro fuel
  induction fuel with
  | zero => intro acc rest; simp [hlSplitAux]
  | succ fuel ih =>
    intro acc rest
    cases rest with
    | nil => simp [hlSplitAux]
    | cons c cs =>
      rcases hf : findKeywordAt kws (c :: cs) with _ | k
      · simp only [hlSplitAux, hf]
        rw [ih]
        simp
      · simp only [hlSplitAux, hf, List.flatten_cons]
        rw [ih]
        simp [List.take_append_drop]

theorem spanConcat_cons (x : String × Bool) (l : List (String × Bool)) :
    spanConcat (x :: l) = x.1 ++ spanConcat l := rfl

theorem spanConcat_map_mk (f : List Char → Bool) :
    ∀ ps : List (List Char),
      spanConcat (ps.map (fun p => (String.mk p, f p))) = String.mk ps.flatten := by
  intro ps
  induction ps with
  | nil => rfl
  | cons p t ih =>
    rw [List.map_cons, spanConcat_cons, ih]
    rw [List.flatten_cons, ← strMk_append]

/-- Dropping the empty spans (which insert nothing into the widget)
does not change the concatenated text. -/
theorem spanConcat_filter_ne (l : List (String × Bool)) :
    spanConcat (l.filter (fun p => p.1 != "")) = spanConcat l := by
  induction l with
  | nil => rfl
  | cons x t ih =>
    rw [List.filter_cons]
    by_cases hx : x.1 = ""
    · rw [if_neg (by simp [hx]), ih, spanConcat_cons, hx, str_empty_append]
    · rw [if_pos (by simpa using hx), spanConcat_cons, spanConcat_cons, ih]

/-- Claim C5: (1)-(2) for every input text and keyword list,
concatenating the inserted pieces in order - and likewise the
observable non-empty spans - reconstructs the input text exactly;
(3) with an empty keyword list the whole text is inserted as a single
non-match span; (4) for the keyword set made of "cancer" and the input
"Cancer treatment options" the observable widget content is exactly
the highlighted span "Cancer" followed by the plain span
" treatment options" (case-insensitive match, original casing kept).
The raw insert-call list in (4) additionally carries a leading empty
piece produced by re.split before the boundary match; inserting the
empty string adds nothing to the widget, so the observable spans are
renderedSpans. -/
theorem C5_highlighter :
    (∀ (kws : List String) (text : String),
      spanConcat (insert_text_with_highlights kws text) = text) ∧
    (∀ (kws : List String) (text : String),
      spanConcat (renderedSpans kws text) = text) ∧
    (∀ text : String, insert_text_with_highlights [] text = [(text, false)]) ∧
    renderedSpans ["cancer"] "Cancer treatment options" =
      [("Cancer", true), (" treatment options", false)] := by
  have hround : ∀ (kws : List String) (text : String),
      spanConcat (insert_text_with_highlights kws text) = text := by
    intro kws text
    unfold insert_text_with_highlights
    by_cases hk : kws = []
    · rw [if_pos hk, spanConcat_cons]
      exact str_append_empty text
    · rw [if_neg hk, spanConcat_map_mk]
      unfold hlSplit
      rw [hlSplitAux_flatten]
      simp [strMk_data]
  refine ⟨hround, ?_, fun _ => rfl, by decide⟩
  intro kws text
  unfold renderedSpans
  rw [spanConcat_filter_ne, hround]

/-! ## Claim C6 -/

/-- parse_pubmed_xml stamps exactly the sequence number it is given
onto any article it produces. -/
theorem parse_pubmed_xml_srNo (x : XmlPubmedArticle) (n : Nat) (a : Article)
    (h : parse_pubmed_xml x n = some a) : a.srNo = n := by
  unfold parse_pubmed_xml at h
  rcases hx : x.article with _ | art
  · rw [hx] at h; exact absurd h (by simp)
  · rw [hx] at h
    have := Option.some.inj h
    rw [← this]

/-- Loop invariant of search_pubmed_direct: every successfully parsed
entry sitting at position k of the accumulating list carries
Sr_No = k + 1 (failed parses leave a None slot that keeps the
numbering aligned with positions). -/
theorem direct_loop_inv_aux (xs : List XmlPubmedArticle) :
    ∀ acc : List (Option Article),
      (∀ k a, acc[k]? = some (some a) → a.srNo = k + 1) →
      ∀ k a,
        (xs.foldl (fun acc x => acc ++ [parse_pubmed_xml x (acc.length + 1)]) acc)[k]?
          = some (some a) → a.srNo = k + 1 := by
  induction xs with
  | nil => intro acc hacc; exact hacc
  | cons x t ih =>
    intro acc hacc
    rw [List.foldl_cons]
    apply ih
    intro k a hk
    rcases Nat.lt_trichotomy k acc.length with hlt | heq | hgt
    · rw [List.getElem?_append_left hlt] at hk
      exact hacc k a hk
    · subst heq
      rw [List.getElem?_concat_length] at hk
      exact parse_pubmed_xml_srNo x _ a (Option.some.inj hk)
    · rw [List.getElem?_eq_none (by simp; omega)] at hk
      exact absurd hk (by simp)

theorem direct_loop_inv (xs : List XmlPubmedArticle) :
    ∀ k a, (search_pubmed_direct_loop xs)[k]? = some (some a) → a.srNo = k + 1 := by
  apply direct_loop_inv_aux
  intro k a hk
  simp at hk

/-- Every Cochrane row i is numbered base + i + 1, where base is the
count of already-aggregated records. -/
theorem load_cochrane_inv (base : Nat) (rows : List CsvRow) :
    ∀ k b, (load_cochrane_csv base rows)[k]? = some b → b.srNo = base + k + 1 := by
  intro k b hk
  unfold load_cochrane_csv at hk
  rw [List.getElem?_map] at hk
  rcases he : rows.enum[k]? with _ | p
  · rw [he] at hk; exact absurd hk (by simp)
  · rw [he] at hk
    have hp := List.getElem?_enum rows k
    rw [he] at hp
    rcases hr : rows[k]? with _ | r
    · rw [hr] at hp; exact absurd hp.symm (by simp)
    · rw [hr] at hp
      have hpk : p = (k, r) := Option.some.inj hp.symm |>.symm
      subst hpk
      have := Option.some.inj hk
      rw [← this]
      rfl

/-- In the aggregated batch every well-formed entry at position k has
Sr_No = k + 1. -/
theorem aggregate_inv (xs : List XmlPubmedArticle) (rows : List CsvRow) :
    ∀ k a, (aggregateBatch xs rows)[k]? = some (some a) → a.srNo = k + 1 := by
  intro k a hk
  unfold aggregateBatch at hk
  rcases Nat.lt_or_ge k (search_pubmed_direct_loop xs).length with hlt | hge
  · rw [List.getElem?_append_left hlt] at hk
    exact direct_loop_inv xs k a hk
  · rw [List.getElem?_append_right hge] at hk
    rw [List.getElem?_map] at hk
    rcases hc : (load_cochrane_csv (search_pubmed_direct_loop xs).length rows)[
        k - (search_pubmed_direct_loop xs).length]? with _ | b
    · rw [hc] at hk; exact absurd hk (by simp)
    · rw [hc] at hk
      have hb : b = a := Option.some.inj (by simpa using hk)
      have := load_cochrane_inv (search_pubmed_direct_loop xs).length rows _ b hc
      subst hb
      omega

/-- A batch whose well-formed entry at position k always carries
Sr_No = off + k + 1 has strictly increasing (hence pairwise distinct)
sequence numbers. -/
theorem slotInv_pairwise :
    ∀ (l : List (Option Article)) (off : Nat),
      (∀ k a, l[k]? = some (some a) → a.srNo = off + k + 1) →
      List.Pairwise (· < ·) (seqNums l) := by
  intro l
  induction l with
  | nil => intro off _; simp [seqNums]
  | cons o t ih =>
    intro off H
    have ht : ∀ k a, t[k]? = some (some a) → a.srNo = (off + 1) + k + 1 := by
      intro k a hk
      have := H (k + 1) a (by simpa using hk)
      omega
    cases o with
    | none =>
      have hseq : seqNums (none :: t) = seqNums t := by
        simp [seqNums]
      rw [hseq]
      exact ih (off + 1) ht
    | some a =>
      have ha : a.srNo = off + 1 := by
        have := H 0 a (by simp)
        omega
      have hseq : seqNums (some a :: t) = a.srNo :: seqNums t := by
        simp [seqNums]
      rw [hseq]
      refine List.pairwise_cons.mpr ⟨?_, ih (off + 1) ht⟩
      intro b hb
      obtain ⟨c, hc, hcb⟩ := List.mem_map.mp hb
      obtain ⟨oc, hoc, hco⟩ := List.mem_filterMap.mp hc
      obtain ⟨i, hi⟩ := List.mem_iff_getElem?.mp hoc
      have hsrc : c.srNo = (off + 1) + i + 1 := by
        apply ht i c
        rw [hi]
        exact congrArg some (by simpa using hco)
      omega

/-- Claim C6: in a batch aggregated from the provider records followed
by the manual-import rows, the sequence numbers of the well-formed
entries are strictly increasing in append order (List.Pairwise with <
gives both strict increase and pairwise uniqueness); every provider
article's number is below every import article's number (the provider
block also precedes the import block positionally, by the ++ in
aggregateBatch); and import row i is numbered
len(already-aggregated records) + i + 1. -/
theorem C6_sequence_numbers (xs : List XmlPubmedArticle) (rows : List CsvRow) :
    List.Pairwise (· < ·) (seqNums (aggregateBatch xs rows)) ∧
    (∀ a ∈ (search_pubmed_direct_loop xs).filterMap id,
      ∀ b ∈ load_cochrane_csv (search_pubmed_direct_loop xs).length rows,
        a.srNo < b.srNo) ∧
    (∀ i b,
      (load_cochrane_csv (search_pubmed_direct_loop xs).length rows)[i]? = some b →
        b.srNo = (search_pubmed_direct_loop xs).length + i + 1) := by
  refine ⟨?_, ?_, ?_⟩
  · apply slotInv_pairwise _ 0
    intro k a hk
    have := aggregate_inv xs rows k a hk
    omega
  · intro a ha b hb
    obtain ⟨oa, hoa, hao⟩ := List.mem_filterMap.mp ha
    obtain ⟨i, hi⟩ := List.mem_iff_getElem?.mp hoa
    have hia : a.srNo = i + 1 := by
      apply direct_loop_inv xs i a
      rw [hi]
      exact congrArg some (by simpa using hao)
    have hilt : i < (search_pubmed_direct_loop xs).length :=
      (List.getElem?_eq_some.mp hi).1
    obtain ⟨j, hj⟩ := List.mem_iff_getElem?.mp hb
    have hjb := load_cochrane_inv (search_pubmed_direct_loop xs).length rows j b hj
    omega
  · exact load_cochrane_inv (search_pubmed_direct_loop xs).length rows

/-- A concrete parseable PubMed XML record. -/
def xm0 : XmlPubmedArticle :=
  { pmid := some "11",
    article := some { articleTitle := some "T", abstractTexts := [], authorList := [] } }

/-- A concrete Cochrane CSV row. -/
def rw0 : CsvRow :=
  { title := some "C", authors := none, abstract := none, doi := some "d1" }

/-- The article that parse_pubmed_xml produces from xm0 with sequence
number 1. -/
def artP : Article :=
  { srNo := 1, title := "T", idLink := "PMID: 11", abstract := "",
    authors := "No authors listed", source := "PubMed",
    status := "Pending", decisionDate := none }

/-- Witness for C6_sequence_numbers on a one-record, one-row batch. -/
theorem C6_sequence_numbers_witness :
    artP.srNo < (cochraneArticle 1 0 rw0).srNo ∧
    (cochraneArticle 1 0 rw0).srNo = (search_pubmed_direct_loop [xm0]).length + 0 + 1 :=
  ⟨(C6_sequence_numbers [xm0] [rw0]).2.1 artP (by decide)
      (cochraneArticle 1 0 rw0) (by decide),
   (C6_sequence_numbers [xm0] [rw0]).2.2 0 (cochraneArticle 1 0 rw0) (by decide)⟩
